import Mathlib

/-!
Verification development for the AI-Chat repository: a shallow embedding of
the streaming chat pipeline (backend relay and message formatter in
`src/backend/src/index.ts`, client stream decoder and request lifecycle in
`src/frontend/app/page.tsx`, attachment normalization in
`src/frontend/app/components/ChatInput.tsx`) together with theorems settling
the specification claims.
-/

/-- Protocol events written by the streaming relay as SSE frames
(`src/backend/src/index.ts:152,157,166`): a `content` delta, a terminal
`done` (optionally carrying usage accounting), or a terminal `error`. -/
inductive StreamEvent where
  | content (s : String)
  | done (usage : Option String)
  | error (e : String)
deriving DecidableEq

/-- One chunk yielded by the upstream completion stream, as read by the relay
loop (`src/backend/src/index.ts:149-159`): `content` models
`chunk.choices[0]?.delta?.content`, `finishReason` models
`chunk.choices[0]?.finish_reason`, `usage` models `chunk.usage`. -/
structure UpstreamChunk where
  content : Option String
  finishReason : Option String
  usage : Option String
deriving DecidableEq

/-- Events the relay writes for a single upstream chunk
(`src/backend/src/index.ts:149-159`): a `content` event when the delta is a
non-empty string (JS truthiness of `if (content)`), then a `done` event when
`finish_reason === 'stop'`. -/
def chunkEvents (c : UpstreamChunk) : List StreamEvent :=
  (match c.content with
   | some s => if s = "" then [] else [StreamEvent.content s]
   | none => []) ++
  (if c.finishReason = some ("stop") then [StreamEvent.done c.usage] else [])

/-- Events written on the streaming response after validation has passed
(`src/backend/src/index.ts:138-168`): `chunks` are the upstream chunks the
`for await` loop consumed before the iteration ended; `err = some e` models
the iteration (or the upstream call itself) throwing with message `e`, in
which case the `catch` block writes one `error` event before ending the
response. -/
def relayEvents (chunks : List UpstreamChunk) (err : Option String) : List StreamEvent :=
  chunks.flatMap chunkEvents ++
    (match err with
     | some e => [StreamEvent.error e]
     | none => [])

/-- Whether an event is terminal (`done` or `error`). -/
def isTerminal : StreamEvent → Bool
  | StreamEvent.content _ => false
  | StreamEvent.done _ => true
  | StreamEvent.error _ => true

/-- Whether an event is a `content` event. -/
def isContent : StreamEvent → Bool
  | StreamEvent.content _ => true
  | StreamEvent.done _ => false
  | StreamEvent.error _ => false

/-- The ordering invariant claimed of the event stream: zero or more
`content` events followed by exactly one terminal event, with no event of any
kind after the terminal one. -/
def contentsThenOneTerminal (evs : List StreamEvent) : Bool :=
  match evs.getLast? with
  | some t => isTerminal t && evs.dropLast.all isContent
  | none => false

/-- An upstream stream is well behaved when it either ends normally with
exactly one `finish_reason = stop` chunk as its final chunk, or fails with an
error having emitted no `stop` chunk. -/
def WellFormedUpstream (chunks : List UpstreamChunk) (err : Option String) : Prop :=
  (err = none ∧ ∃ pre last, chunks = pre ++ [last] ∧
      last.finishReason = some ("stop") ∧
      ∀ c ∈ pre, c.finishReason ≠ some ("stop")) ∨
  (∃ e, err = some e ∧ ∀ c ∈ chunks, c.finishReason ≠ some ("stop"))

/-- A chunk whose finish reason is not `stop` contributes only `content`
events. -/
lemma chunkEvents_all_content (c : UpstreamChunk)
    (h : c.finishReason ≠ some ("stop")) : (chunkEvents c).all isContent = true := by
  unfold chunkEvents
  simp [h]
  cases hc : c.content with
  | none => simp
  | some s =>
    by_cases hs : s = "" <;> simp [hs, isContent]

/-- Chunks none of which has finish reason `stop` contribute only `content`
events. -/
lemma flatMap_chunkEvents_all_content (l : List UpstreamChunk)
    (h : ∀ c ∈ l, c.finishReason ≠ some ("stop")) :
    (l.flatMap chunkEvents).all isContent = true := by
  induction l with
  | nil => simp
  | cons c cs ih =>
    simp only [List.flatMap_cons, List.all_append]
    have hc := chunkEvents_all_content c (h c (by simp))
    have hcs := ih (fun x hx => h x (by simp [hx]))
    simp [hc, hcs]

/-- A list of content events followed by one terminal event satisfies the
ordering invariant. -/
lemma contentsThenOneTerminal_append (l : List StreamEvent) (t : StreamEvent)
    (hl : l.all isContent = true) (ht : isTerminal t = true) :
    contentsThenOneTerminal (l ++ [t]) = true := by
  unfold contentsThenOneTerminal
  rw [List.getLast?_concat, List.dropLast_concat]
  simp [ht, hl]

/-- Claim C1 (amended): for every request passing validation, if the upstream
stream either ends normally with exactly one `finish_reason = stop` chunk as
its last chunk, or fails with an error having emitted no `stop` chunk, then
the event stream written consists of zero or more `content` events followed
by exactly one terminal event (`done` on normal completion, `error` on
failure), and no event of any kind is written after the terminal one. -/
theorem relay_wellformed_upstream_events (chunks : List UpstreamChunk)
    (err : Option String) (h : WellFormedUpstream chunks err) :
    contentsThenOneTerminal (relayEvents chunks err) = true := by
  rcases h with ⟨he, pre, last, hchunks, hstop, hpre⟩ | ⟨e, he, hall⟩
  · subst he hchunks
    unfold relayEvents
    simp only [List.append_nil]
    rw [List.flatMap_append]
    simp only [List.flatMap_cons, List.flatMap_nil, List.append_nil]
    have hsplit : chunkEvents last = (match last.content with
        | some s => if s = "" then [] else [StreamEvent.content s]
        | none => ([] : List StreamEvent)) ++ [StreamEvent.done last.usage] := by
      unfold chunkEvents
      rw [hstop]
      simp
    rw [hsplit, ← List.append_assoc]
    apply contentsThenOneTerminal_append
    · have h1 := flatMap_chunkEvents_all_content pre hpre
      have h2 : (match last.content with
        | some s => if s = "" then [] else [StreamEvent.content s]
        | none => ([] : List StreamEvent)).all isContent = true := by
        cases hc : last.content with
        | none => simp
        | some s => by_cases hs : s = "" <;> simp [hs, isContent]
      rw [List.all_append, h1, h2]
      rfl
    · rfl
  · subst he
    unfold relayEvents
    apply contentsThenOneTerminal_append
    · exact flatMap_chunkEvents_all_content chunks hall
    · rfl

/-- Witness for the amended C1 theorem at a concrete well-behaved upstream
script: two content deltas, the second chunk carrying the stop signal. -/
theorem relay_wellformed_upstream_events_witness :
    contentsThenOneTerminal
      (relayEvents
        [⟨some ("He"), none, none⟩, ⟨some ("llo"), some ("stop"), none⟩]
        none) = true :=
  relay_wellformed_upstream_events _ _
    (Or.inl ⟨rfl, ⟨[⟨some ("He"), none, none⟩], ⟨some ("llo"), some ("stop"), none⟩,
      rfl, rfl, by decide⟩⟩)

/-- Claim C1 counterexample: an upstream stream that ends without any
`finish_reason = stop` chunk (for example a generation truncated with
`finish_reason = length`) makes the relay write its content events and then
end the response without any terminal event, refuting the claim as stated. -/
theorem relay_no_terminal_counterexample :
    contentsThenOneTerminal
      (relayEvents [⟨some ("partial"), some ("length"), none⟩] none) = false := by
  decide

/-- Split a character sequence at every newline, keeping empty segments,
modelling the JS `chunk.split("\n")` in `src/frontend/app/page.tsx:115`. -/
def splitLines : List Char → List (List Char)
  | [] => [[]]
  | c :: rest =>
    if c = '\n' then [] :: splitLines rest
    else
      match splitLines rest with
      | [] => [[c]]
      | l :: ls => (c :: l) :: ls

/-- Whether the first sequence starts with the second, modelling JS
`String.prototype.startsWith`. -/
def listStartsWith : List Char → List Char → Bool
  | _, [] => true
  | [], _ :: _ => false
  | c :: cs, p :: ps => c = p && listStartsWith cs ps

/-- Resolution of a JSON string escape sequence, restricted to the escapes
`JSON.stringify` emits for the frames of this protocol. -/
def jsonUnescape (c : Char) : Option Char :=
  if c = '"' then some '"'
  else if c = '\\' then some '\\'
  else if c = 'n' then some '\n'
  else if c = 't' then some '\t'
  else if c = 'r' then some '\r'
  else if c = '/' then some '/'
  else none

/-- Reads a JSON string body up to its closing quote, returning the decoded
characters and the remainder; fails on a truncated or malformed literal, as
`JSON.parse` throws there. -/
def parseJsonChars : List Char → Option (List Char × List Char)
  | [] => none
  | c :: rest =>
    if c = '"' then some ([], rest)
    else if c = '\\' then
      match rest with
      | [] => none
      | e :: rest2 =>
        match jsonUnescape e, parseJsonChars rest2 with
        | some u, some (s, rem) => some (u :: s, rem)
        | _, _ => none
    else
      match parseJsonChars rest with
      | some (s, rem) => some (c :: s, rem)
      | none => none

/-- The `data: ` marker prefix of each SSE line checked by the client
(`src/frontend/app/page.tsx:118`). -/
def dataMarker : List Char := ("data: ").toList

/-- Opening text of a serialized `content` frame payload. -/
def contentOpen : List Char := ("\x7b\"type\":\"content\",\"content\":\"").toList

/-- Opening text of a serialized `error` frame payload. -/
def errorOpen : List Char := ("\x7b\"type\":\"error\",\"error\":\"").toList

/-- Serialized `done` frame payload without usage accounting. -/
def doneBare : List Char := ("\x7b\"type\":\"done\"\x7d").toList

/-- Opening text of a serialized `done` frame payload carrying usage. -/
def doneOpen : List Char := ("\x7b\"type\":\"done\",\"usage\":").toList

/-- Models `JSON.parse(line.slice(6))` followed by the `data.type` dispatch
(`src/frontend/app/page.tsx:120-137`), restricted to the frame grammar the
relay serializes with `JSON.stringify` (`src/backend/src/index.ts:152,157,166`):
any string outside that grammar, including a truncated fragment of a frame,
fails to parse. -/
def parseFrameJson (s : List Char) : Option StreamEvent :=
  if listStartsWith s contentOpen then
    match parseJsonChars (s.drop contentOpen.length) with
    | some (body, rem) =>
      if rem = ['\x7d'] then some (StreamEvent.content (String.mk body)) else none
    | none => none
  else if s = doneBare then some (StreamEvent.done none)
  else if listStartsWith s doneOpen && s.getLast? = some '\x7d' then
    some (StreamEvent.done (some (String.mk ((s.drop doneOpen.length).dropLast))))
  else if listStartsWith s errorOpen then
    match parseJsonChars (s.drop errorOpen.length) with
    | some (body, rem) =>
      if rem = ['\x7d'] then some (StreamEvent.error (String.mk body)) else none
    | none => none
  else none

/-- Observable state of one client read loop
(`src/frontend/app/page.tsx:105-144`): `accumulated` is the local
`accumulatedContent` variable, `published` the successive values passed to
`setStreamingContent` during decoding, `committed` the assistant message
contents appended to the transcript via `setMessages`. -/
structure ClientRun where
  accumulated : String
  published : List String
  committed : List String
deriving DecidableEq

/-- Processing of one line of a chunk (`src/frontend/app/page.tsx:117-141`):
lines without the `data: ` marker are ignored; a `content` event extends the
accumulator and publishes it; a `done` event commits the accumulator as an
assistant turn and publishes the empty string (the local accumulator variable
itself is not reset by the source); an `error` event has no effect, because
the `throw new Error(data.error)` at line 136 is caught by the inner `catch`
at line 138 that exists to skip invalid JSON lines; unparsable lines are
skipped by that same `catch`. -/
def processLine (st : ClientRun) (line : List Char) : ClientRun :=
  if listStartsWith line dataMarker then
    match parseFrameJson (line.drop 6) with
    | some (StreamEvent.content s) =>
      { st with accumulated := st.accumulated ++ s,
                published := st.published ++ [st.accumulated ++ s] }
    | some (StreamEvent.done _) =>
      { st with committed := st.committed ++ [st.accumulated],
                published := st.published ++ [""] }
    | some (StreamEvent.error _) => st
    | none => st
  else st

/-- Processing of one received chunk (`src/frontend/app/page.tsx:114-142`):
the chunk is split on newlines and every resulting line is handled
immediately; no remainder is carried over to the next chunk. -/
def processChunk (st : ClientRun) (chunk : String) : ClientRun :=
  (splitLines chunk.toList).foldl processLine st

/-- The decoder run over a sequence of received chunks, starting from an
empty accumulator (`src/frontend/app/page.tsx:107-144`). -/
def runDecoder (chunks : List String) : ClientRun :=
  chunks.foldl processChunk { accumulated := "", published := [], committed := [] }

/-- A well-formed two-frame byte sequence: one `content` frame carrying
`Hello`, then one `done` frame. -/
def helloFrames : String :=
  "data: \x7b\"type\":\"content\",\"content\":\"Hello\"\x7d\n\ndata: \x7b\"type\":\"done\"\x7d\n\n"

/-- First 10 characters of `helloFrames`, a split point inside the first
frame. -/
def helloFramesA : String := "data: \x7b\"ty"

/-- Remainder of `helloFrames` after its first 10 characters. -/
def helloFramesB : String :=
  "pe\":\"content\",\"content\":\"Hello\"\x7d\n\ndata: \x7b\"type\":\"done\"\x7d\n\n"

/-- Claim C2 is violated by the code: the two chunkings cover the same byte
sequence, yet feeding it in one shot commits the assistant turn `Hello` with
published accumulator values `Hello`, `` while feeding it split at offset 10
loses the content frame entirely (both fragments fail the marker check or the
JSON parse) and commits the empty turn with published values ``; the decoder
keeps no buffer across read boundaries. -/
theorem decoder_split_loses_frame :
    helloFramesA ++ helloFramesB = helloFrames ∧
    runDecoder [helloFrames] =
      { accumulated := "Hello", published := ["Hello", ""], committed := ["Hello"] } ∧
    runDecoder [helloFramesA, helloFramesB] =
      { accumulated := "", published := [""], committed := [""] } ∧
    runDecoder [helloFrames] ≠ runDecoder [helloFramesA, helloFramesB] := by
  decide

/-- A `content` frame carrying `Hi`. -/
def hiFrame : String := "data: \x7b\"type\":\"content\",\"content\":\"Hi\"\x7d\n\n"

/-- An `error` frame carrying the message `boom`. -/
def boomFrame : String := "data: \x7b\"type\":\"error\",\"error\":\"boom\"\x7d\n\n"

/-- Claim C3 is violated by the code: after streaming has begun (one content
frame) an in-band `error` frame leaves the transcript without any synthesized
assistant turn (`committed = []`) and leaves the in-progress accumulator
holding the partial text `Hi` instead of clearing it, because the
`throw new Error(data.error)` intended for the outer error handler is
swallowed by the inner `catch` that skips invalid JSON lines
(`src/frontend/app/page.tsx:135-140`). -/
theorem decoder_error_frame_swallowed :
    runDecoder [hiFrame, boomFrame] =
      { accumulated := "Hi", published := ["Hi"], committed := [] } := by
  decide

/-- The fixed system prompt prepended to every upstream conversation
(`src/backend/src/index.ts:28-39`). -/
def SYSTEM_PROMPT : String :=
  "You are a helpful, friendly, and knowledgeable AI assistant.\n\n" ++
  "Guidelines:\n" ++
  "- Be conversational and engaging while remaining informative\n" ++
  "- Use emojis occasionally to add warmth to your responses 😊\n" ++
  "- Format responses clearly using markdown when appropriate (bold, lists, code blocks, etc.)\n" ++
  "- Break down complex topics into digestible explanations\n" ++
  "- Be concise but thorough - provide enough detail to be helpful without being overwhelming\n" ++
  "- If you don\x27t know something, say so honestly\n" ++
  "- When providing code examples, use proper syntax highlighting with code blocks\n" ++
  "- When analyzing images, describe what you see and answer any questions about them\n" ++
  "- When given text files, read and analyze the content as requested"

/-- Wire attachment kind (`src/backend/src/index.ts:7-11`): `image` or
`text`; a pdf is expanded client side into `image` wire attachments before
transmission. -/
inductive WireKind where
  | image
  | text
deriving DecidableEq

/-- A wire attachment as received by the backend
(`src/backend/src/index.ts:7-11`): `data` is the base64 data URL for images
or the decoded content for text files. -/
structure WireAttachment where
  type : WireKind
  data : String
  name : String
deriving DecidableEq

/-- Role of a wire chat message (`src/backend/src/index.ts:13-17`). -/
inductive BRole where
  | user
  | assistant
deriving DecidableEq

/-- A wire chat message as received by the backend
(`src/backend/src/index.ts:13-17`). -/
structure BChatMessage where
  role : BRole
  content : String
  attachments : Option (List WireAttachment)
deriving DecidableEq

/-- One part of a multi-part upstream message
(`src/backend/src/index.ts:73-100`): a text part or an image-url part with
its detail hint. -/
inductive UpstreamPart where
  | text (s : String)
  | imageUrl (url : String) (detail : String)
deriving DecidableEq

/-- A message sent to the upstream completion service
(`src/backend/src/index.ts:59-116`): its content is either a plain string or
a list of parts. -/
inductive UpstreamMsg where
  | system (content : String)
  | assistant (content : String)
  | userText (content : String)
  | userParts (parts : List UpstreamPart)
deriving DecidableEq

/-- Parts contributed by one wire attachment
(`src/backend/src/index.ts:76-92`): an image attachment becomes one
image-url part with detail `auto`; a text attachment becomes one text part
labelled with its file name. -/
def attachmentParts (a : WireAttachment) : List UpstreamPart :=
  match a.type with
  | WireKind.image => [UpstreamPart.imageUrl a.data ("auto")]
  | WireKind.text => [UpstreamPart.text ("[File: " ++ a.name ++ "]\n" ++ a.data)]

/-- Formatting of one wire message (`src/backend/src/index.ts:64-113`):
assistant messages pass through as text; a user message with a non-empty
attachment list becomes a multi-part message with the attachment parts first
and the typed text, when non-empty (JS truthiness of `if (msg.content)`),
as a single trailing text part; otherwise the user message passes through as
text. -/
def formatMessage (m : BChatMessage) : UpstreamMsg :=
  match m.role with
  | BRole.assistant => UpstreamMsg.assistant m.content
  | BRole.user =>
    match m.attachments with
    | some atts =>
      if atts.length > 0 then
        UpstreamMsg.userParts (atts.flatMap attachmentParts ++
          (if m.content = "" then [] else [UpstreamPart.text m.content]))
      else UpstreamMsg.userText m.content
    | none => UpstreamMsg.userText m.content

/-- The message formatter (`src/backend/src/index.ts:59-116`): one fixed
system message followed by the formatted conversation. -/
def formatMessagesForOpenAI (msgs : List BChatMessage) : List UpstreamMsg :=
  UpstreamMsg.system SYSTEM_PROMPT :: msgs.map formatMessage

/-- Whether an upstream message carries the system role. -/
def isSystemMsg : UpstreamMsg → Bool
  | UpstreamMsg.system _ => true
  | UpstreamMsg.assistant _ => false
  | UpstreamMsg.userText _ => false
  | UpstreamMsg.userParts _ => false

/-- Claim C9: for every conversation, the formatter output begins with the
one system-role message whose content is the fixed constant `SYSTEM_PROMPT`
— the same for every request, since it does not depend on any argument — and
no later message carries the system role. -/
theorem system_message_first_and_unique (msgs : List BChatMessage) :
    (formatMessagesForOpenAI msgs).head? = some (UpstreamMsg.system SYSTEM_PROMPT) ∧
    (formatMessagesForOpenAI msgs).tail.all (fun m => !(isSystemMsg m)) = true := by
  constructor
  · rfl
  · rw [List.all_eq_true]
    intro m hm
    simp only [formatMessagesForOpenAI, List.tail_cons, List.mem_map] at hm
    obtain ⟨b, _, rfl⟩ := hm
    rcases b with ⟨role, content, attachments⟩
    cases role with
    | assistant => rfl
    | user =>
      cases attachments with
      | none => rfl
      | some atts =>
        by_cases h : atts.length > 0 <;> simp [formatMessage, h, isSystemMsg]

/-- A concrete one-message wire conversation used as witness input. -/
def wireHi : BChatMessage := { role := BRole.user, content := "hi", attachments := none }

/-- Witness for the C9 theorem at a concrete one-turn conversation. -/
theorem system_message_first_and_unique_witness :
    (formatMessagesForOpenAI [wireHi]).head? =
      some (UpstreamMsg.system SYSTEM_PROMPT) ∧
    (formatMessagesForOpenAI [wireHi]).tail.all (fun m => !(isSystemMsg m)) = true :=
  system_message_first_and_unique [wireHi]

/-- A normalized client attachment as held in component state
(`src/frontend/app/components/ChatInput.tsx:14-21`) at send time: an image
carries its base64 data URL, a text file its decoded content, a pdf its
rendered page images (the normalizer at `ChatInput.tsx:117-119` always sets
`pageImages` on a pdf attachment it accepts). -/
inductive FrontAttachment where
  | image (name : String) (base64 : String)
  | text (name : String) (content : String)
  | pdf (name : String) (pageImages : List String)
deriving DecidableEq

/-- Client-side expansion of one attachment into wire attachments
(`src/frontend/app/page.tsx:66-84`): a pdf is expanded into one image wire
attachment per page, named with its page number; an image or text attachment
maps to a single wire attachment of the same kind. -/
def toWire : FrontAttachment → List WireAttachment
  | FrontAttachment.image name b64 =>
    [{ type := WireKind.image, data := b64, name := name }]
  | FrontAttachment.text name content =>
    [{ type := WireKind.text, data := content, name := name }]
  | FrontAttachment.pdf name pages =>
    pages.enum.map fun p =>
      { type := WireKind.image, data := p.2,
        name := name ++ " (page " ++ toString (p.1 + 1) ++ ")" }

/-- The wire message the client builds for the new user turn
(`src/frontend/app/page.tsx:55-88`): the attachments field is present
exactly when the turn has attachments, and then holds their expansion. -/
def clientWireMessage (typed : String) (atts : List FrontAttachment) : BChatMessage :=
  { role := BRole.user, content := typed,
    attachments := if atts.length > 0 then some (atts.flatMap toWire) else none }

/-- The parts Claim C4 states for one attachment: exactly one image part per
image attachment, one image part per retained pdf page in page order, and
one labelled text part per text attachment. -/
def frontParts : FrontAttachment → List UpstreamPart
  | FrontAttachment.image _ b64 => [UpstreamPart.imageUrl b64 ("auto")]
  | FrontAttachment.text name content =>
    [UpstreamPart.text ("[File: " ++ name ++ "]\n" ++ content)]
  | FrontAttachment.pdf _ pages => pages.map fun pg => UpstreamPart.imageUrl pg ("auto")

/-- The data-model invariant that an attachment included in a turn has its
payload: a pdf attachment has at least one retained page. -/
def attachmentHasPayload : FrontAttachment → Prop
  | FrontAttachment.pdf _ pages => pages ≠ []
  | FrontAttachment.image _ _ => True
  | FrontAttachment.text _ _ => True

/-- Mapping a list and flattening singletons is the same as mapping. -/
lemma flatMap_singleton_eq_map {α β : Type} (f : α → β) (l : List α) :
    (l.flatMap fun x => [f x]) = l.map f := by
  induction l with
  | nil => rfl
  | cons x xs ih => simp [List.flatMap_cons, ih]

/-- The server-side parts of one client-expanded attachment are exactly the
parts Claim C4 describes for it. -/
lemma toWire_parts (a : FrontAttachment) :
    (toWire a).flatMap attachmentParts = frontParts a := by
  cases a with
  | image name b64 => rfl
  | text name content => rfl
  | pdf name pages =>
    show ((pages.enum.map _).flatMap attachmentParts) = _
    rw [List.flatMap_map]
    have h1 : (pages.enum.flatMap fun p : Nat × String =>
        [UpstreamPart.imageUrl p.2 ("auto")]) =
        pages.enum.map (fun p : Nat × String => UpstreamPart.imageUrl p.2 ("auto")) :=
      flatMap_singleton_eq_map _ _
    have h2 : pages.enum.map (fun p : Nat × String => UpstreamPart.imageUrl p.2 ("auto")) =
        (pages.enum.map Prod.snd).map (fun pg => UpstreamPart.imageUrl pg ("auto")) := by
      rw [List.map_map]
      rfl
    show (pages.enum.flatMap fun p => attachmentParts
        { type := WireKind.image, data := p.2,
          name := name ++ " (page " ++ toString (p.1 + 1) ++ ")" }) = _
    calc (pages.enum.flatMap fun p : Nat × String => attachmentParts
            { type := WireKind.image, data := p.2,
              name := name ++ " (page " ++ toString (p.1 + 1) ++ ")" })
        = pages.enum.flatMap fun p : Nat × String =>
            [UpstreamPart.imageUrl p.2 ("auto")] := rfl
      _ = pages.enum.map (fun p : Nat × String => UpstreamPart.imageUrl p.2 ("auto")) := h1
      _ = (pages.enum.map Prod.snd).map (fun pg => UpstreamPart.imageUrl pg ("auto")) := h2
      _ = pages.map fun pg => UpstreamPart.imageUrl pg ("auto") := by
            rw [List.enum_map_snd]

/-- An attachment with its payload expands to at least one wire
attachment. -/
lemma toWire_ne_nil (a : FrontAttachment) (h : attachmentHasPayload a) :
    toWire a ≠ [] := by
  cases a with
  | image name b64 => simp [toWire]
  | text name content => simp [toWire]
  | pdf name pages =>
    simp only [toWire, ne_eq, List.map_eq_nil_iff]
    intro he
    exact h (by simpa using congrArg List.length he)

/-- Claim C4: a user turn with a non-empty attachment list, each attachment
carrying its payload, is transmitted and formatted as one multi-part
upstream message whose parts are the attachment-derived parts first, in
original attachment order — one image part per image attachment, one image
part per retained pdf page in page order, one labelled text part per text
attachment — with the typed text, when non-empty, as a single trailing text
part, and with no trailing part when the typed text is empty. -/
theorem formatter_user_turn_with_attachments (typed : String)
    (atts : List FrontAttachment) (h1 : atts ≠ [])
    (h2 : ∀ a ∈ atts, attachmentHasPayload a) :
    formatMessage (clientWireMessage typed atts) =
      UpstreamMsg.userParts (atts.flatMap frontParts ++
        (if typed = "" then [] else [UpstreamPart.text typed])) := by
  have hlen : atts.length > 0 := by
    cases atts with
    | nil => exact absurd rfl h1
    | cons a rest => simp
  have hwire : (atts.flatMap toWire).length > 0 := by
    cases atts with
    | nil => exact absurd rfl h1
    | cons a rest =>
      rw [List.flatMap_cons, List.length_append]
      have := toWire_ne_nil a (h2 a (by simp))
      have : 0 < (toWire a).length := List.length_pos.mpr this
      omega
  unfold clientWireMessage formatMessage
  simp only [hlen, if_pos, gt_iff_lt]
  rw [if_pos hwire]
  congr 1
  congr 1
  rw [List.flatMap_assoc]
  simp only [toWire_parts]

/-- Witness for the C4 theorem at a concrete turn: one image, one two-page
pdf and one text file with non-empty typed text, yielding image, page-image,
labelled-text and trailing-text parts in that order. -/
theorem formatter_user_turn_with_attachments_witness :
    formatMessage (clientWireMessage ("Look")
        [FrontAttachment.image ("cat.png") ("IMG"),
         FrontAttachment.pdf ("doc.pdf") ["P1", "P2"],
         FrontAttachment.text ("notes.txt") ("hello")]) =
      UpstreamMsg.userParts
        [UpstreamPart.imageUrl ("IMG") ("auto"),
         UpstreamPart.imageUrl ("P1") ("auto"),
         UpstreamPart.imageUrl ("P2") ("auto"),
         UpstreamPart.text ("[File: notes.txt]\nhello"),
         UpstreamPart.text ("Look")] := by
  have h := formatter_user_turn_with_attachments ("Look")
      [FrontAttachment.image ("cat.png") ("IMG"),
       FrontAttachment.pdf ("doc.pdf") ["P1", "P2"],
       FrontAttachment.text ("notes.txt") ("hello")]
      (by simp)
      (by
        intro a ha
        fin_cases ha <;> simp [attachmentHasPayload])
  exact h.trans (by decide)

/-- The `messages` field of a request body as the validation at
`src/backend/src/index.ts:122,180` distinguishes it: absent (or otherwise
falsy), present but not an array, or an array of wire messages. -/
inductive MessagesField where
  | absent
  | notArray
  | arr (msgs : List BChatMessage)
deriving DecidableEq

/-- The request validation shared by both chat endpoints
(`src/backend/src/index.ts:122-130,180-188`): a missing, non-array or empty
`messages` field is rejected with status 400; an absent upstream credential
is rejected with status 500; otherwise the request proceeds. -/
def validateChatRequest (mf : MessagesField) (hasKey : Bool) : Option (Nat × String) :=
  match mf with
  | MessagesField.absent => some (400, "Messages array is required")
  | MessagesField.notArray => some (400, "Messages array is required")
  | MessagesField.arr msgs =>
    if msgs.length = 0 then some (400, "Messages array is required")
    else if !hasKey then some (500, "OpenAI API key not configured")
    else none

/-- The call made to the upstream completion service: the model identifier
and the formatted messages (`src/backend/src/index.ts:142-146,193-196`). -/
structure ChatCall where
  model : String
  messages : List UpstreamMsg
deriving DecidableEq

/-- The wire messages carried by a `messages` field, empty for the invalid
shapes (never consulted on their rejection paths). -/
def messagesOf : MessagesField → List BChatMessage
  | MessagesField.arr msgs => msgs
  | MessagesField.absent => []
  | MessagesField.notArray => []

/-- Outcome of the streaming endpoint handler
(`src/backend/src/index.ts:119-174`): a synchronous error status with its
structured body, the upstream call if one was opened, and the SSE events
written. -/
structure StreamHandlerResult where
  earlyStatus : Option (Nat × String)
  upstreamCall : Option ChatCall
  events : List StreamEvent
deriving DecidableEq

/-- The streaming endpoint handler (`src/backend/src/index.ts:119-174`):
validation failure answers synchronously with a status and error body and
opens no stream; otherwise one upstream streaming call is made with the
model field defaulted to `gpt-4o` and the relay events are written. -/
def chatStreamHandler (mf : MessagesField) (modelField : Option String)
    (hasKey : Bool) (chunks : List UpstreamChunk) (upErr : Option String) :
    StreamHandlerResult :=
  match validateChatRequest mf hasKey with
  | some se => { earlyStatus := some se, upstreamCall := none, events := [] }
  | none =>
    { earlyStatus := none,
      upstreamCall := some { model := modelField.getD ("gpt-4o"),
                             messages := formatMessagesForOpenAI (messagesOf mf) },
      events := relayEvents chunks upErr }

/-- Outcome of the non-streaming endpoint handler
(`src/backend/src/index.ts:177-208`). -/
structure ChatHandlerResult where
  status : Nat
  errBody : Option String
  content : Option String
  upstreamCall : Option ChatCall
deriving DecidableEq

/-- The non-streaming endpoint handler (`src/backend/src/index.ts:177-208`):
same validation as the streaming one; on success one upstream call is made
with the model field defaulted to `gpt-4o`, answering 200 with the completion
or 500 with the upstream error message. -/
def chatHandler (mf : MessagesField) (modelField : Option String) (hasKey : Bool)
    (upstream : Except String String) : ChatHandlerResult :=
  match validateChatRequest mf hasKey with
  | some se =>
    { status := se.1, errBody := some se.2, content := none, upstreamCall := none }
  | none =>
    let call : ChatCall := { model := modelField.getD ("gpt-4o"),
                             messages := formatMessagesForOpenAI (messagesOf mf) }
    match upstream with
    | Except.ok c =>
      { status := 200, errBody := none, content := some c, upstreamCall := some call }
    | Except.error e =>
      { status := 500, errBody := some e, content := none, upstreamCall := some call }

/-- Whether a synchronous response carries an error status (4xx/5xx here
means at least 400). -/
def errorStatusB : Option (Nat × String) → Bool
  | some (s, _) => 400 ≤ s
  | none => false

/-- Claim C7: a request whose `messages` field is missing, not an array or an
empty array, or issued while the upstream credential is absent, is answered
synchronously by either endpoint with a 4xx/5xx status and a structured
error body, and no call to the upstream completion service is made. -/
theorem validation_rejects_without_upstream (mf : MessagesField)
    (modelField : Option String) (hasKey : Bool) (chunks : List UpstreamChunk)
    (upErr : Option String) (upstream : Except String String)
    (h : mf = MessagesField.absent ∨ mf = MessagesField.notArray ∨
         mf = MessagesField.arr [] ∨ hasKey = false) :
    errorStatusB (chatStreamHandler mf modelField hasKey chunks upErr).earlyStatus = true ∧
    (chatStreamHandler mf modelField hasKey chunks upErr).upstreamCall = none ∧
    (chatStreamHandler mf modelField hasKey chunks upErr).events = [] ∧
    400 ≤ (chatHandler mf modelField hasKey upstream).status ∧
    (chatHandler mf modelField hasKey upstream).errBody.isSome = true ∧
    (chatHandler mf modelField hasKey upstream).upstreamCall = none := by
  have hv : ∃ s e, 400 ≤ s ∧ validateChatRequest mf hasKey = some (s, e) := by
    rcases h with rfl | rfl | rfl | rfl
    · exact ⟨400, "Messages array is required", le_refl _, rfl⟩
    · exact ⟨400, "Messages array is required", le_refl _, rfl⟩
    · exact ⟨400, "Messages array is required", le_refl _, by simp [validateChatRequest]⟩
    · cases mf with
      | absent => exact ⟨400, "Messages array is required", le_refl _, rfl⟩
      | notArray => exact ⟨400, "Messages array is required", le_refl _, rfl⟩
      | arr msgs =>
        by_cases hm : msgs.length = 0
        · exact ⟨400, "Messages array is required", le_refl _,
            by simp [validateChatRequest, hm]⟩
        · exact ⟨500, "OpenAI API key not configured", by norm_num,
            by simp [validateChatRequest, hm]⟩
  obtain ⟨s, e, hs, hval⟩ := hv
  refine ⟨?_, ?_, ?_, ?_, ?_, ?_⟩ <;>
    simp [chatStreamHandler, chatHandler, hval, errorStatusB, hs]

/-- Witness for the C7 theorem at a concrete rejected request: an empty
messages array with the credential present. -/
theorem validation_rejects_without_upstream_witness :
    errorStatusB (chatStreamHandler (MessagesField.arr []) none true [] none).earlyStatus
        = true ∧
    (chatStreamHandler (MessagesField.arr []) none true [] none).upstreamCall = none ∧
    (chatStreamHandler (MessagesField.arr []) none true [] none).events = [] ∧
    400 ≤ (chatHandler (MessagesField.arr []) none true (Except.ok ("hi"))).status ∧
    (chatHandler (MessagesField.arr []) none true (Except.ok ("hi"))).errBody.isSome
        = true ∧
    (chatHandler (MessagesField.arr []) none true (Except.ok ("hi"))).upstreamCall
        = none :=
  validation_rejects_without_upstream (MessagesField.arr []) none true [] none
    (Except.ok ("hi")) (Or.inr (Or.inr (Or.inl rfl)))

/-- Claim C10: a valid request that omits the `model` field makes either
endpoint call the upstream completion service with model identifier
`gpt-4o`. -/
theorem default_model_gpt4o (msgs : List BChatMessage) (chunks : List UpstreamChunk)
    (upErr : Option String) (upstream : Except String String) (h : msgs ≠ []) :
    (chatStreamHandler (MessagesField.arr msgs) none true chunks upErr).upstreamCall =
      some { model := "gpt-4o", messages := formatMessagesForOpenAI msgs } ∧
    (chatHandler (MessagesField.arr msgs) none true upstream).upstreamCall =
      some { model := "gpt-4o", messages := formatMessagesForOpenAI msgs } := by
  have hv : validateChatRequest (MessagesField.arr msgs) true = none := by
    have : msgs.length ≠ 0 := by
      simpa using fun hl => h (List.length_eq_zero.mp hl)
    simp [validateChatRequest, this]
  constructor
  · simp [chatStreamHandler, hv, messagesOf]
  · cases upstream <;> simp [chatHandler, hv, messagesOf]

/-- Witness for the C10 theorem at a concrete one-message request. -/
theorem default_model_gpt4o_witness :
    (chatStreamHandler (MessagesField.arr [wireHi]) none true [] none).upstreamCall =
      some { model := "gpt-4o", messages := formatMessagesForOpenAI [wireHi] } ∧
    (chatHandler (MessagesField.arr [wireHi]) none true
        (Except.ok ("ok"))).upstreamCall =
      some { model := "gpt-4o", messages := formatMessagesForOpenAI [wireHi] } :=
  default_model_gpt4o [wireHi] [] none (Except.ok ("ok")) (by simp)

/-- Client application state relevant to the request lifecycle
(`src/frontend/app/page.tsx:13-17`): the transcript message contents, the
shared in-progress streaming content, the loading flag, the id of the
controller currently held in `abortControllerRef`, the ids of controllers
whose `abort()` has been called, and the local `accumulatedContent` variable
of each read loop keyed by its controller id (lookup takes the most recent
binding). -/
structure AppState where
  messages : List String
  streaming : String
  isLoading : Bool
  ctrl : Option Nat
  aborted : List Nat
  accs : List (Nat × String)
deriving DecidableEq

/-- The synchronous prefix of `handleSendMessage`
(`src/frontend/app/page.tsx:27-51`): append the user turn, set the loading
flag, clear the in-progress content, and install a fresh abort controller —
without calling `abort()` on the previous one. -/
def sendStart (st : AppState) (userContent : String) (freshId : Nat) : AppState :=
  { st with messages := st.messages ++ [userContent],
            isLoading := true, streaming := "",
            ctrl := some freshId,
            accs := (freshId, "") :: st.accs }

/-- The `handleNewChat` handler (`src/frontend/app/page.tsx:166-174`): abort
the controller currently held in the ref, clear the transcript and the
in-progress content, and reset the loading flag. -/
def handleNewChat (st : AppState) : AppState :=
  { st with
      aborted := (match st.ctrl with
        | some i => st.aborted ++ [i]
        | none => st.aborted),
      messages := [], streaming := "", isLoading := false }

/-- The local `accumulatedContent` of the read loop owned by controller
`r`. -/
def getAcc (st : AppState) (r : Nat) : String := (st.accs.lookup r).getD ""

/-- Effect of one decoded line on the shared application state, for the read
loop owned by controller `r` (`src/frontend/app/page.tsx:117-141`): the same
event handling as `processLine`, but `setStreamingContent` and `setMessages`
act on state shared between loops while the accumulator is loop-local. -/
def processAppLine (r : Nat) (st : AppState) (line : List Char) : AppState :=
  if listStartsWith line dataMarker then
    match parseFrameJson (line.drop 6) with
    | some (StreamEvent.content s) =>
      { st with streaming := getAcc st r ++ s,
                accs := (r, getAcc st r ++ s) :: st.accs }
    | some (StreamEvent.done _) =>
      { st with messages := st.messages ++ [getAcc st r], streaming := "" }
    | some (StreamEvent.error _) => st
    | none => st
  else st

/-- One `reader.read()` step of the request owned by controller `r`
(`src/frontend/app/page.tsx:110-143`): if `r` has been aborted the read
rejects with `AbortError`, which the catch at lines 146-149 returns on
without touching any state and without surfacing an error; otherwise the
chunk is split into lines and processed. -/
def deliverChunk (st : AppState) (r : Nat) (chunk : String) : AppState :=
  if r ∈ st.aborted then st
  else (splitLines chunk.toList).foldl (processAppLine r) st

/-- The `finally` block closing a request
(`src/frontend/app/page.tsx:160-163`): reset the loading flag and null the
controller ref. -/
def finishRequest (st : AppState) : AppState :=
  { st with isLoading := false, ctrl := none }

/-- A state with request 1 in flight holding partial accumulated content. -/
def inFlightState : AppState :=
  { messages := ["q"], streaming := "", isLoading := true,
    ctrl := some 1, aborted := [], accs := [(1, "par")] }

/-- Claim C5 counterexample: issuing a new chat message while request 1 is
in flight does not cancel request 1 — `handleSendMessage` installs a fresh
controller without aborting the previous one — and a late `done` event of
the superseded, uncancelled request then mutates the transcript by appending
its partial accumulator as an assistant turn. -/
theorem send_does_not_cancel_counterexample :
    (1 ∉ (sendStart inFlightState ("hi") 2).aborted) ∧
    (deliverChunk (sendStart inFlightState ("hi") 2) 1
        ("data: \x7b\"type\":\"done\"\x7d\n\n")).messages = ["q", "hi", "par"] := by
  decide

/-- Claim C5 (amended): starting a new chat while a request is in flight
cancels the outstanding request via its cancellation token, and every late
chunk of the cancelled request is discarded — the state is left entirely
unchanged, so the transcript is not mutated and no error is surfaced.
Issuing a new chat message, by contrast, does not cancel the outstanding
request (it only installs a fresh token, see the counterexample); concurrent
sends are instead prevented by disabling submission while a request is
loading. -/
theorem new_chat_cancels_and_discards (st : AppState) (r : Nat)
    (chunks : List String) (h : st.ctrl = some r) :
    r ∈ (handleNewChat st).aborted ∧
    chunks.foldl (fun s c => deliverChunk s r c) (handleNewChat st) =
      handleNewChat st := by
  have hmem : r ∈ (handleNewChat st).aborted := by
    simp [handleNewChat, h]
  refine ⟨hmem, ?_⟩
  induction chunks with
  | nil => rfl
  | cons c cs ih =>
    have hstep : deliverChunk (handleNewChat st) r c = handleNewChat st := by
      unfold deliverChunk
      rw [if_pos hmem]
    rw [List.foldl_cons, hstep]
    exact ih

/-- Witness for the amended C5 theorem: request 1 is cancelled by a new chat
and its late `done` chunk changes nothing. -/
theorem new_chat_cancels_and_discards_witness :
    1 ∈ (handleNewChat inFlightState).aborted ∧
    ["data: \x7b\"type\":\"done\"\x7d\n\n"].foldl
        (fun s c => deliverChunk s 1 c) (handleNewChat inFlightState) =
      handleNewChat inFlightState :=
  new_chat_cancels_and_discards inFlightState 1
    ["data: \x7b\"type\":\"done\"\x7d\n\n"] rfl

/-- Configured maximum number of rendered PDF pages
(`src/frontend/app/components/ChatInput.tsx:32`). -/
def MAX_PDF_PAGES : Nat := 10

/-- The PDF page conversion loop
(`src/frontend/app/components/ChatInput.tsx:34-64`): `render i` abstracts
loading page `i` of the document and rendering it to a compressed image (the
canvas context acquisition is modelled as always succeeding); the loop clamps
the page count to `min(numPages, MAX_PDF_PAGES)` and renders pages
`1..clamp` in increasing order. -/
def convertPdfToImages (render : Nat → String) (numPages : Nat) : List String :=
  (List.range (min numPages MAX_PDF_PAGES)).map fun i => render (i + 1)

/-- The preview assigned to an accepted pdf attachment
(`src/frontend/app/components/ChatInput.tsx:117-119`): element 0 of its page
image sequence. -/
def pdfPreview (render : Nat → String) (numPages : Nat) : Option String :=
  (convertPdfToImages render numPages).head?

/-- Claim C6: for a PDF with `numPages` pages the produced page-image
sequence has exactly `min(numPages, MAX_PDF_PAGES)` elements, is the
rendering of pages `1, 2, ...` in strictly increasing page order starting at
page 1, and the attachment preview is element 0 of that sequence. -/
theorem pdf_pages_clamped_ordered_preview (render : Nat → String) (numPages : Nat) :
    (convertPdfToImages render numPages).length = min numPages MAX_PDF_PAGES ∧
    convertPdfToImages render numPages =
      (List.range' 1 (min numPages MAX_PDF_PAGES)).map render ∧
    pdfPreview render numPages = (convertPdfToImages render numPages).head? := by
  refine ⟨by simp [convertPdfToImages], ?_, rfl⟩
  unfold convertPdfToImages
  rw [List.range'_eq_map_range, List.map_map]
  apply List.map_congr_left
  intro i _
  simp [Nat.add_comm]

/-- Maximum accepted file size in bytes
(`src/frontend/app/components/ChatInput.tsx:31`). -/
def MAX_FILE_SIZE : Nat := 20 * 1024 * 1024

/-- Allowed image content types
(`src/frontend/app/components/ChatInput.tsx:29`). -/
def ALLOWED_IMAGE_TYPES : List String :=
  ["image/jpeg", "image/png", "image/gif", "image/webp"]

/-- Allowed text content types
(`src/frontend/app/components/ChatInput.tsx:30`). -/
def ALLOWED_TEXT_TYPES : List String :=
  ["text/plain", "text/markdown", "application/json", "text/csv"]

/-- A selected file as the normalizer observes it
(`src/frontend/app/components/ChatInput.tsx:87-141`): its name, byte size
and declared content type; `readResult` is the value delivered by the
FileReader load event for image or text reads (`none` models a read whose
load event never fires — no error handler is registered, so such a file is
silently dropped); `pdfPages` is the result of the PDF conversion (`none`
models the conversion throwing, caught per file at lines 121-124). -/
structure FileModel where
  name : String
  size : Nat
  mime : String
  readResult : Option String
  pdfPages : Option (List String)
deriving DecidableEq

/-- Image classification check (`ChatInput.tsx:100`). -/
def isImageFile (f : FileModel) : Bool := ALLOWED_IMAGE_TYPES.contains f.mime

/-- Text classification check (`ChatInput.tsx:101`). -/
def isTextFile (f : FileModel) : Bool :=
  ALLOWED_TEXT_TYPES.contains f.mime ||
    f.name.endsWith (".txt") || f.name.endsWith (".md")

/-- PDF classification check (`ChatInput.tsx:102`). -/
def isPdfFile (f : FileModel) : Bool :=
  f.mime == "application/pdf" || f.name.endsWith (".pdf")

/-- A normalized attachment record as built by the normalizer
(`src/frontend/app/components/ChatInput.tsx:109-140`). -/
inductive NormAttachment where
  | image (name : String) (preview : String)
  | text (name : String) (content : String)
  | pdf (name : String) (pages : List String) (preview : Option String)
deriving DecidableEq

/-- Processing of one file of a batch
(`src/frontend/app/components/ChatInput.tsx:94-141`): oversized files and
files matching no allow-list are rejected with a warning and `continue`;
classification prefers pdf over image over text (line 112); a pdf whose
conversion fails is dropped by its per-file catch; image and text files are
accepted when their read completes. -/
def processFile (f : FileModel) : Option NormAttachment :=
  if f.size > MAX_FILE_SIZE then none
  else if !(isImageFile f || isTextFile f || isPdfFile f) then none
  else if isPdfFile f then
    match f.pdfPages with
    | some pages => some (NormAttachment.pdf f.name pages pages.head?)
    | none => none
  else if isImageFile f then
    match f.readResult with
    | some r => some (NormAttachment.image f.name r)
    | none => none
  else
    match f.readResult with
    | some r => some (NormAttachment.text f.name r)
    | none => none

/-- The batch normalizer (`src/frontend/app/components/ChatInput.tsx:93-147`):
every file of the batch is processed independently and each accepted file
contributes one attachment (asynchronous FileReader completions may append
out of selection order; acceptance is unaffected). -/
def handleFileSelect (files : List FileModel) : List NormAttachment :=
  files.filterMap processFile

/-- Claim C8: the normalized attachments of a batch are exactly the files
that pass the size and type checks and normalize without error (those with
`processFile` succeeding), and the rejection of a single file removes only
itself — every sibling of a rejected file is normalized exactly as it would
be without it. -/
theorem batch_accepts_exactly_passing (files xs ys : List FileModel)
    (bad : FileModel) (a : NormAttachment) (h : processFile bad = none) :
    (a ∈ handleFileSelect files ↔ ∃ f ∈ files, processFile f = some a) ∧
    handleFileSelect (xs ++ bad :: ys) = handleFileSelect xs ++ handleFileSelect ys := by
  constructor
  · exact List.mem_filterMap
  · unfold handleFileSelect
    simp [List.filterMap_append, List.filterMap_cons, h]

/-- A small accepted image file. -/
def goodImg : FileModel :=
  { name := "cat.png", size := 100, mime := "image/png",
    readResult := some ("DATA"), pdfPages := none }

/-- A small accepted text file. -/
def goodTxt : FileModel :=
  { name := "notes.txt", size := 50, mime := "text/plain",
    readResult := some ("hello"), pdfPages := none }

/-- An oversized file, rejected by the size check. -/
def hugeFile : FileModel :=
  { name := "big.png", size := 30000000, mime := "image/png",
    readResult := some ("DATA"), pdfPages := none }

/-- Witness for the C8 theorem: a batch with an oversized file between two
accepted files keeps exactly the two accepted ones. -/
theorem batch_accepts_exactly_passing_witness :
    (NormAttachment.image ("cat.png") ("DATA") ∈ handleFileSelect [goodImg] ↔
      ∃ f ∈ [goodImg],
        processFile f = some (NormAttachment.image ("cat.png") ("DATA"))) ∧
    handleFileSelect ([goodImg] ++ hugeFile :: [goodTxt]) =
      handleFileSelect [goodImg] ++ handleFileSelect [goodTxt] :=
  batch_accepts_exactly_passing [goodImg] [goodImg] [goodTxt] hugeFile
    (NormAttachment.image ("cat.png") ("DATA")) (by decide)

/-- Witness for the C6 theorem at a concrete 3-page document. -/
theorem pdf_pages_clamped_ordered_preview_witness :
    (convertPdfToImages (fun i => "page" ++ toString i) 3).length =
      min 3 MAX_PDF_PAGES ∧
    convertPdfToImages (fun i => "page" ++ toString i) 3 =
      (List.range' 1 (min 3 MAX_PDF_PAGES)).map (fun i => "page" ++ toString i) ∧
    pdfPreview (fun i => "page" ++ toString i) 3 =
      (convertPdfToImages (fun i => "page" ++ toString i) 3).head? :=
  pdf_pages_clamped_ordered_preview (fun i => "page" ++ toString i) 3
